import Mathlib

/-!
Verification development for the PyTorch-ML notebooks
("Part 3 - Training Neural Networks" and "Part 6 - Saving and Loading Models").

The notebooks are straight-line scripts over the torch API.  The shallow
embedding below models the data the notebooks manipulate: tensors are a shape
together with a flat list of rational values, the `fc_model.Network`
architecture is a list of fully connected layers plus an output layer, a state
dict is an association list from parameter names to tensors, `torch.save` and
`torch.load` are a serializer/deserializer pair over a flat token stream, and
`load_state_dict` performs the strict shape check that the notebook exercises.
Training-loop bookkeeping and the SGD/autograd facts the notebooks demonstrate
are modelled further below.
-/

/-- Model of a torch tensor: a shape and a flat list of (rational) entries.
Floating point values are abstracted by rationals. -/
structure Tensor where
  shape : List Nat
  data : List ℚ
  deriving DecidableEq

/-- Model of `torch.nn.Linear(in_features, out_features)`: weight has shape
`[out_features, in_features]` and bias has shape `[out_features]`. -/
structure Linear where
  in_features : Nat
  out_features : Nat
  weight : Tensor
  bias : Tensor
  deriving DecidableEq

/-- Modelled from the spec: the repository's `fc_model.Network` module (the
file `fc_model.py` is imported by the Part 6 notebook but is not among the
provided sources).  As printed by the notebook, a `Network` holds a
`ModuleList` of hidden `Linear` layers and one output `Linear` layer (the
parameterless dropout module is omitted since it has no state). -/
structure Network where
  input_size : Nat
  output_size : Nat
  hidden_layers : List Linear
  output : Linear
  deriving DecidableEq

/-- Fresh `Linear` layer; `init slot pos` supplies the (random) initial value
of entry `pos` of parameter slot `slot`, standing in for torch's random
initialization. -/
def mkLinear (init : Nat → Nat → ℚ) (slot nin nout : Nat) : Linear :=
  { in_features := nin, out_features := nout,
    weight := ⟨[nout, nin], (List.range (nout * nin)).map (init (2 * slot))⟩,
    bias := ⟨[nout], (List.range nout).map (init (2 * slot + 1))⟩ }

/-- Hidden layers of `fc_model.Network`: a first layer `input_size → h` and
then one layer per adjacent pair of hidden sizes. -/
def mkLayers (init : Nat → Nat → ℚ) : Nat → Nat → List Nat → List Linear
  | _, _, [] => []
  | slot, nin, h :: t => mkLinear init slot nin h :: mkLayers init (slot + 1) h t

/-- Last element of `d :: l` (the last hidden size, feeding the output layer). -/
def lastD (d : Nat) : List Nat → Nat
  | [] => d
  | h :: t => lastD h t

/-- Modelled from the spec: `fc_model.Network(input_size, output_size,
hidden_layers)` with a nonempty hidden size list `h :: t`. -/
def Network.make1 (inp out h : Nat) (t : List Nat) (init : Nat → Nat → ℚ) : Network :=
  { input_size := inp, output_size := out,
    hidden_layers := mkLayers init 0 inp (h :: t),
    output := mkLinear init (h :: t).length (lastD h t) out }

/-- Modelled from the spec: `fc_model.Network`; with an empty hidden size list
the Python constructor raises (it indexes `hidden_layers[0]`), modelled by
`none`. -/
def Network.make (inp out : Nat) (hidden : List Nat) (init : Nat → Nat → ℚ) :
    Option Network :=
  match hidden with
  | [] => none
  | h :: t => some (Network.make1 inp out h t init)

/-- State dict entries for the hidden layers starting at index `i`, followed by
the output layer's entries, in torch's parameter order. -/
def sdAux : Nat → List Linear → Linear → List (String × Tensor)
  | _, [], out => [("output.weight", out.weight), ("output.bias", out.bias)]
  | i, l :: ls, out =>
    ("hidden_layers." ++ toString i ++ ".weight", l.weight) ::
    ("hidden_layers." ++ toString i ++ ".bias", l.bias) :: sdAux (i + 1) ls out

/-- Model of `model.state_dict()`: parameter names mapped to their tensors, in
the order the notebook prints
(`hidden_layers.0.weight, hidden_layers.0.bias, ..., output.weight, output.bias`). -/
def Network.state_dict (m : Network) : List (String × Tensor) :=
  sdAux 0 m.hidden_layers m.output

/-- Name and shape of one state dict entry. -/
def entryShape (e : String × Tensor) : String × List Nat :=
  (e.1, e.2.shape)

/-- Names and shapes of a state dict, the data `load_state_dict` checks. -/
def sdShapes (sd : List (String × Tensor)) : List (String × List Nat) :=
  sd.map entryShape

/-- Replace the weight and bias of a layer (sizes are left as they are, as in
torch's in-place `copy_` during `load_state_dict`). -/
def Linear.withWB (l : Linear) (w b : Tensor) : Linear :=
  { l with weight := w, bias := b }

/-- Distribute a flat list of tensors `[w0, b0, w1, b1, ..., wOut, bOut]` over
the hidden layers and the output layer. -/
def rebuildAux : List Linear → Linear → List Tensor → List Linear × Linear
  | [], out, w :: b :: _ => ([], out.withWB w b)
  | l :: ls, out, w :: b :: ts =>
    let p := rebuildAux ls out ts
    (l.withWB w b :: p.1, p.2)
  | ls, out, _ => (ls, out)

/-- Model of `model.load_state_dict(state_dict)` with the default
`strict=True`: if every parameter name and shape matches, the parameter values
are copied into the model and the call succeeds (torch reports
`<All keys matched successfully>`); otherwise a `RuntimeError` is raised,
modelled by `Except.error`.  State dicts of `Network` models list keys in a
fixed canonical order, so the comparison is positional. -/
def Network.load_state_dict (m : Network) (sd : List (String × Tensor)) :
    Except String Network :=
  if sdShapes m.state_dict = sdShapes sd then
    let p := rebuildAux m.hidden_layers m.output (sd.map Prod.snd)
    Except.ok { m with hidden_layers := p.1, output := p.2 }
  else
    Except.error ("Error(s) in loading state_dict for Network: size mismatch")

/-- Names and shapes of the state dict of a network with the given input size,
hidden sizes and output size; used to show that `sdShapes` depends only on the
architecture. -/
def archAux : Nat → Nat → List Nat → Nat → List (String × List Nat)
  | _, nin, [], nout =>
    [("output.weight", [nout, nin]), ("output.bias", [nout])]
  | i, nin, h :: t, nout =>
    ("hidden_layers." ++ toString i ++ ".weight", [h, nin]) ::
    ("hidden_layers." ++ toString i ++ ".bias", [h]) :: archAux (i + 1) h t nout

/-- The checkpoint dictionary built in the Part 6 notebook:
`{'input_size': 784, 'output_size': 10, 'hidden_layers': [each.out_features
for each in model.hidden_layers], 'state_dict': model.state_dict()}`. -/
structure Checkpoint where
  input_size : Nat
  output_size : Nat
  hidden_layers : List Nat
  state_dict : List (String × Tensor)
  deriving DecidableEq

/-- Checkpoint dictionary exactly as the notebook builds it (the input and
output sizes are hard-coded literals there). -/
def mkCheckpoint (m : Network) : Checkpoint :=
  { input_size := 784, output_size := 10,
    hidden_layers := m.hidden_layers.map Linear.out_features,
    state_dict := m.state_dict }

/-- Objects the Part 6 notebook passes to `torch.save`: either a bare state
dict or the checkpoint dictionary. -/
inductive SavedObj where
  | sd (s : List (String × Tensor))
  | ckpt (c : Checkpoint)
  deriving DecidableEq

/-- Serialized token, modelling the byte stream `torch.save` writes. -/
inductive Tok where
  | nat (n : Nat)
  | rat (q : ℚ)
  | str (s : String)
  deriving DecidableEq

/-- Serialize a tensor: shape length, shape, data length, data. -/
def encTensor (t : Tensor) : List Tok :=
  Tok.nat t.shape.length ::
    (t.shape.map Tok.nat ++ (Tok.nat t.data.length :: t.data.map Tok.rat))

/-- Serialize one state dict entry: its name then its tensor. -/
def encEntry (e : String × Tensor) : List Tok :=
  Tok.str e.1 :: encTensor e.2

/-- Serialize a state dict: entry count, then the entries. -/
def encSD (sd : List (String × Tensor)) : List Tok :=
  Tok.nat sd.length :: (sd.map encEntry).flatten

/-- Serialize a checkpoint dictionary. -/
def encCkpt (c : Checkpoint) : List Tok :=
  Tok.nat c.input_size :: Tok.nat c.output_size ::
    Tok.nat c.hidden_layers.length ::
    (c.hidden_layers.map Tok.nat ++ encSD c.state_dict)

/-- Serialize a saved object, tagged by its kind. -/
def encObj : SavedObj → List Tok
  | SavedObj.sd s => Tok.nat 0 :: encSD s
  | SavedObj.ckpt c => Tok.nat 1 :: encCkpt c

/-- Read one natural number token. -/
def decNat : List Tok → Option (Nat × List Tok)
  | Tok.nat n :: r => some (n, r)
  | _ => none

/-- Read `k` natural number tokens. -/
def decNats : Nat → List Tok → Option (List Nat × List Tok)
  | 0, r => some ([], r)
  | k + 1, Tok.nat n :: r =>
    (decNats k r).bind fun p => some (n :: p.1, p.2)
  | _ + 1, _ => none

/-- Read `k` rational tokens. -/
def decRats : Nat → List Tok → Option (List ℚ × List Tok)
  | 0, r => some ([], r)
  | k + 1, Tok.rat q :: r =>
    (decRats k r).bind fun p => some (q :: p.1, p.2)
  | _ + 1, _ => none

/-- Deserialize a tensor. -/
def decTensor (ts : List Tok) : Option (Tensor × List Tok) :=
  (decNat ts).bind fun p1 =>
  (decNats p1.1 p1.2).bind fun p2 =>
  (decNat p2.2).bind fun p3 =>
  (decRats p3.1 p3.2).bind fun p4 =>
  some (⟨p2.1, p4.1⟩, p4.2)

/-- Deserialize one state dict entry. -/
def decEntry : List Tok → Option ((String × Tensor) × List Tok)
  | Tok.str s :: r => (decTensor r).bind fun p => some ((s, p.1), p.2)
  | _ => none

/-- Deserialize `k` state dict entries. -/
def decEntries : Nat → List Tok → Option (List (String × Tensor) × List Tok)
  | 0, r => some ([], r)
  | k + 1, ts =>
    (decEntry ts).bind fun p =>
    (decEntries k p.2).bind fun q => some (p.1 :: q.1, q.2)

/-- Deserialize a state dict. -/
def decSD (ts : List Tok) : Option (List (String × Tensor) × List Tok) :=
  (decNat ts).bind fun p => decEntries p.1 p.2

/-- Deserialize a checkpoint dictionary. -/
def decCkpt (ts : List Tok) : Option (Checkpoint × List Tok) :=
  (decNat ts).bind fun p1 =>
  (decNat p1.2).bind fun p2 =>
  (decNat p2.2).bind fun p3 =>
  (decNats p3.1 p3.2).bind fun p4 =>
  (decSD p4.2).bind fun p5 =>
  some (⟨p1.1, p2.1, p4.1, p5.1⟩, p5.2)

/-- Deserialize a saved object. -/
def decObj : List Tok → Option (SavedObj × List Tok)
  | Tok.nat 0 :: r => (decSD r).bind fun p => some (SavedObj.sd p.1, p.2)
  | Tok.nat 1 :: r => (decCkpt r).bind fun p => some (SavedObj.ckpt p.1, p.2)
  | _ => none

/-- Model of `torch.save(obj, filepath)`: the file contents written. -/
def torchSave (o : SavedObj) : List Tok :=
  encObj o

/-- Model of `torch.load(filepath)`: deserialize the whole file. -/
def torchLoad (f : List Tok) : Option SavedObj :=
  match decObj f with
  | some (o, []) => some o
  | _ => none

/-- The notebook's `load_checkpoint(filepath)`: load the checkpoint, rebuild
`fc_model.Network` from the stored architecture (with fresh random
initialization `init`), and copy in the stored state dict.  Any error raised
along the way propagates (modelled by `none`); the function installs no
handler. -/
def load_checkpoint (init : Nat → Nat → ℚ) (f : List Tok) : Option Network :=
  match torchLoad f with
  | some (SavedObj.ckpt c) =>
    match Network.make c.input_size c.output_size c.hidden_layers init with
    | some m =>
      match m.load_state_dict c.state_dict with
      | Except.ok m2 => some m2
      | Except.error _ => none
    | none => none
  | _ => none

theorem decNats_enc (xs : List Nat) (r : List Tok) :
    decNats xs.length (xs.map Tok.nat ++ r) = some (xs, r) := by
  induction xs with
  | nil => simp [decNats]
  | cons x xs ih => simp [decNats, ih]

theorem decRats_enc (xs : List ℚ) (r : List Tok) :
    decRats xs.length (xs.map Tok.rat ++ r) = some (xs, r) := by
  induction xs with
  | nil => simp [decRats]
  | cons x xs ih => simp [decRats, ih]

theorem decTensor_enc (t : Tensor) (r : List Tok) :
    decTensor (encTensor t ++ r) = some (t, r) := by
  cases t with
  | mk shape data =>
    simp [decTensor, encTensor, decNat, List.append_assoc, decNats_enc, decRats_enc]

theorem decEntries_enc (es : List (String × Tensor)) (r : List Tok) :
    decEntries es.length ((es.map encEntry).flatten ++ r) = some (es, r) := by
  induction es with
  | nil => simp [decEntries]
  | cons e es ih =>
    cases e with
    | mk k t =>
      simp [decEntries, encEntry, decEntry, List.append_assoc, decTensor_enc, ih]

theorem decSD_enc (sd : List (String × Tensor)) (r : List Tok) :
    decSD (encSD sd ++ r) = some (sd, r) := by
  simp [decSD, encSD, decNat, decEntries_enc]

theorem decCkpt_enc (c : Checkpoint) (r : List Tok) :
    decCkpt (encCkpt c ++ r) = some (c, r) := by
  cases c with
  | mk inp out hs sd =>
    simp [decCkpt, encCkpt, decNat, List.append_assoc, decNats_enc, decSD_enc]

theorem torchLoad_torchSave (o : SavedObj) : torchLoad (torchSave o) = some o := by
  cases o with
  | sd s =>
    have h := decSD_enc s []
    simp at h
    simp [torchLoad, torchSave, encObj, decObj, h]
  | ckpt c =>
    have h := decCkpt_enc c []
    simp at h
    simp [torchLoad, torchSave, encObj, decObj, h]

theorem mkLayers_out_features :
    ∀ (hs : List Nat) (init : Nat → Nat → ℚ) (s nin : Nat),
      (mkLayers init s nin hs).map Linear.out_features = hs := by
  intro hs
  induction hs with
  | nil => intro init s nin; simp [mkLayers]
  | cons h t ih => intro init s nin; simp [mkLayers, mkLinear, ih]

theorem sdShapes_mkLayers :
    ∀ (hs : List Nat) (init : Nat → Nat → ℚ) (i s s2 nin nout : Nat),
      sdShapes (sdAux i (mkLayers init s nin hs) (mkLinear init s2 (lastD nin hs) nout)) =
        archAux i nin hs nout := by
  intro hs
  induction hs with
  | nil =>
    intro init i s s2 nin nout
    simp [sdShapes, sdAux, mkLayers, mkLinear, lastD, archAux, entryShape]
  | cons h t ih =>
    intro init i s s2 nin nout
    have h2 := ih init (i + 1) (s + 1) s2 h nout
    simp only [lastD] at h2 ⊢
    simp [mkLayers, sdAux, sdShapes, entryShape, mkLinear, archAux] at h2 ⊢
    simpa [sdShapes, entryShape] using h2

theorem sdShapes_make1 (inp out h : Nat) (t : List Nat) (init : Nat → Nat → ℚ) :
    sdShapes (Network.make1 inp out h t init).state_dict = archAux 0 inp (h :: t) out := by
  have h2 := sdShapes_mkLayers (h :: t) init 0 0 (h :: t).length inp out
  simp only [lastD] at h2
  simpa [Network.make1, Network.state_dict] using h2

theorem rebuildAux_features :
    ∀ (ls : List Linear) (out : Linear) (ts : List Tensor),
      ((rebuildAux ls out ts).1).map Linear.out_features = ls.map Linear.out_features := by
  intro ls
  induction ls with
  | nil =>
    intro out ts
    rcases ts with _ | ⟨w, _ | ⟨b, ts⟩⟩ <;> simp [rebuildAux]
  | cons l ls ih =>
    intro out ts
    rcases ts with _ | ⟨w, _ | ⟨b, ts⟩⟩ <;> simp [rebuildAux, Linear.withWB, ih]

theorem sdAux_rebuild :
    ∀ (ls : List Linear) (out : Linear) (i : Nat) (sd : List (String × Tensor)),
      sdShapes (sdAux i ls out) = sdShapes sd →
      sdAux i (rebuildAux ls out (sd.map Prod.snd)).1
        (rebuildAux ls out (sd.map Prod.snd)).2 = sd := by
  intro ls
  induction ls with
  | nil =>
    intro out i sd h
    rcases sd with _ | ⟨⟨k1, t1⟩, _ | ⟨⟨k2, t2⟩, rest⟩⟩ <;>
      simp [sdShapes, sdAux, entryShape] at h
    obtain ⟨⟨hk1, _⟩, ⟨hk2, _⟩, hrest⟩ := h
    subst hrest
    simp [rebuildAux, sdAux, Linear.withWB, hk1, hk2]
  | cons l ls ih =>
    intro out i sd h
    rcases sd with _ | ⟨⟨k1, t1⟩, _ | ⟨⟨k2, t2⟩, rest⟩⟩ <;>
      simp [sdShapes, sdAux, entryShape] at h
    obtain ⟨⟨hk1, _⟩, ⟨hk2, _⟩, hrest⟩ := h
    have ihr := ih out (i + 1) rest (by simpa [sdShapes] using hrest)
    simp [rebuildAux, sdAux, Linear.withWB, hk1, hk2, ihr]

theorem load_state_dict_ok (m : Network) (sd : List (String × Tensor))
    (h : sdShapes m.state_dict = sdShapes sd) :
    ∃ m2, m.load_state_dict sd = Except.ok m2 ∧
      m2.state_dict = sd ∧
      m2.input_size = m.input_size ∧ m2.output_size = m.output_size ∧
      m2.hidden_layers.map Linear.out_features =
        m.hidden_layers.map Linear.out_features := by
  refine ⟨{ m with
      hidden_layers := (rebuildAux m.hidden_layers m.output (sd.map Prod.snd)).1,
      output := (rebuildAux m.hidden_layers m.output (sd.map Prod.snd)).2 },
    ?_, ?_, rfl, rfl, ?_⟩
  · simp [Network.load_state_dict, h]
  · have h2 := sdAux_rebuild m.hidden_layers m.output 0 sd
      (by simpa [Network.state_dict] using h)
    simpa [Network.state_dict] using h2
  · exact rebuildAux_features m.hidden_layers m.output (sd.map Prod.snd)

theorem load_state_dict_mismatch (m : Network) (sd : List (String × Tensor))
    (h : sdShapes m.state_dict ≠ sdShapes sd) :
    m.load_state_dict sd =
      Except.error ("Error(s) in loading state_dict for Network: size mismatch") := by
  simp [Network.load_state_dict, h]

theorem make1_out_features (inp out h : Nat) (t : List Nat) (init : Nat → Nat → ℚ) :
    (Network.make1 inp out h t init).hidden_layers.map Linear.out_features = h :: t := by
  simp [Network.make1, mkLayers_out_features]

theorem checkpoint_reload_aux (h : Nat) (t : List Nat) (init init2 : Nat → Nat → ℚ) :
    ∃ m2,
      load_checkpoint init2
        (torchSave (SavedObj.ckpt (mkCheckpoint (Network.make1 784 10 h t init)))) =
          some m2 ∧
      m2.input_size = (Network.make1 784 10 h t init).input_size ∧
      m2.output_size = (Network.make1 784 10 h t init).output_size ∧
      m2.hidden_layers.map Linear.out_features =
        (Network.make1 784 10 h t init).hidden_layers.map Linear.out_features ∧
      m2.state_dict = (Network.make1 784 10 h t init).state_dict := by
  have hsh : sdShapes (Network.make1 784 10 h t init2).state_dict =
      sdShapes (Network.make1 784 10 h t init).state_dict :=
    (sdShapes_make1 784 10 h t init2).trans (sdShapes_make1 784 10 h t init).symm
  obtain ⟨m2, hok, hsd, hin, hout, hfeat⟩ :=
    load_state_dict_ok (Network.make1 784 10 h t init2)
      (Network.make1 784 10 h t init).state_dict hsh
  refine ⟨m2, ?_, ?_, ?_, ?_, hsd⟩
  · simp only [load_checkpoint, torchLoad_torchSave]
    simp only [mkCheckpoint, make1_out_features]
    simp only [Network.make]
    rw [hok]
  · rw [hin]; simp [Network.make1]
  · rw [hout]; simp [Network.make1]
  · rw [hfeat, make1_out_features, make1_out_features]

/-- Claim C2: `load_state_dict` succeeds when the model's architecture exactly
matches the one the state dict was saved from, raises a `RuntimeError` when
any tensor shape differs, and in particular loading a state dict saved from
`Network(784, 10, [512, 256, 128])` into `Network(784, 10, [400, 200, 100])`
raises. -/
theorem load_state_dict_match_behavior (inp out h : Nat) (t : List Nat)
    (init init2 : Nat → Nat → ℚ) :
    (∃ m2, (Network.make1 inp out h t init2).load_state_dict
        (Network.make1 inp out h t init).state_dict = Except.ok m2) ∧
    (∀ (m : Network) (sd : List (String × Tensor)),
      sdShapes m.state_dict ≠ sdShapes sd →
      m.load_state_dict sd =
        Except.error ("Error(s) in loading state_dict for Network: size mismatch")) ∧
    (∃ e, (Network.make1 784 10 400 [200, 100] init2).load_state_dict
        (Network.make1 784 10 512 [256, 128] init).state_dict = Except.error e) := by
  refine ⟨?_, ?_, ?_⟩
  · obtain ⟨m2, hok, -⟩ := load_state_dict_ok (Network.make1 inp out h t init2)
      (Network.make1 inp out h t init).state_dict
      ((sdShapes_make1 inp out h t init2).trans (sdShapes_make1 inp out h t init).symm)
    exact ⟨m2, hok⟩
  · intro m sd hne
    exact load_state_dict_mismatch m sd hne
  · refine ⟨_, load_state_dict_mismatch _ _ ?_⟩
    rw [sdShapes_make1, sdShapes_make1]
    decide

theorem load_state_dict_match_behavior_witness :
    sdShapes (Network.make1 2 1 1 [] (fun _ _ => 0)).state_dict ≠ sdShapes [] ∧
    (Network.make1 2 1 1 [] (fun _ _ => 0)).load_state_dict [] =
      Except.error ("Error(s) in loading state_dict for Network: size mismatch") := by
  refine ⟨by decide, ?_⟩
  exact (load_state_dict_match_behavior 2 1 1 [] (fun _ _ => 0) (fun _ _ => 0)).2.1
    (Network.make1 2 1 1 [] (fun _ _ => 0)) [] (by decide)

/-- Claim C5: saving `model.state_dict()` with `torch.save` and reading it
back with `torch.load` yields a dictionary with exactly the eight keys
`hidden_layers.{0,1,2}.{weight,bias}`, `output.weight`, `output.bias` and
equal tensor values, for the notebook's `Network(784, 10, [512, 256, 128])`. -/
theorem state_dict_save_load_roundtrip (init : Nat → Nat → ℚ) :
    torchLoad (torchSave
        (SavedObj.sd (Network.make1 784 10 512 [256, 128] init).state_dict)) =
      some (SavedObj.sd (Network.make1 784 10 512 [256, 128] init).state_dict) ∧
    (Network.make1 784 10 512 [256, 128] init).state_dict.map Prod.fst =
      ["hidden_layers.0.weight", "hidden_layers.0.bias",
       "hidden_layers.1.weight", "hidden_layers.1.bias",
       "hidden_layers.2.weight", "hidden_layers.2.bias",
       "output.weight", "output.bias"] := by
  refine ⟨torchLoad_torchSave _, ?_⟩
  rfl

/-- Bookkeeping state of the Part 3 training loop: the global step counter
`steps`, the accumulator `running_loss`, and the sequence of loss values
printed so far (`running_loss / print_every` with `print_every = 40`). -/
structure TrainLog where
  steps : Nat
  running_loss : ℚ
  printed : List ℚ
  deriving DecidableEq

/-- One iteration of the inner loop of the Part 3 training loop with loss
value `v` (`loss.item()` of this mini-batch): `steps += 1`, the framework
calls (`optimizer.zero_grad()`, forward, criterion, `loss.backward()`,
`optimizer.step()`) in between, `running_loss += loss.item()`, and if
`steps % print_every == 0` it prints `running_loss / print_every` and resets
`running_loss` to 0. -/
def trainBatch (st : TrainLog) (v : ℚ) : TrainLog :=
  if (st.steps + 1) % 40 = 0 then
    ⟨st.steps + 1, 0, st.printed ++ [(st.running_loss + v) / 40]⟩
  else
    ⟨st.steps + 1, st.running_loss + v, st.printed⟩

/-- One epoch of the training loop: `running_loss = 0` at the top of the
epoch, then the inner loop over the loader's batches (their loss values). -/
def trainEpoch (st : TrainLog) (losses : List ℚ) : TrainLog :=
  losses.foldl trainBatch ⟨st.steps, 0, st.printed⟩

/-- The whole loop `for e in range(epochs)` with `epochs = 3`, driven by the
loss values of the three passes over the train loader. -/
def trainThreeEpochs (l0 l1 l2 : List ℚ) : TrainLog :=
  trainEpoch (trainEpoch (trainEpoch ⟨0, 0, []⟩ l0) l1) l2

theorem trainWindow :
    ∀ (w : List ℚ) (st : TrainLog), 0 < w.length → w.length ≤ 40 →
      st.steps % 40 = 40 - w.length →
      w.foldl trainBatch st =
        ⟨st.steps + w.length, 0, st.printed ++ [(st.running_loss + w.sum) / 40]⟩ := by
  intro w
  induction w with
  | nil => intro st h0 _ _; simp at h0
  | cons v w ih =>
    intro st _ hle hst
    cases w with
    | nil =>
      have hp : (st.steps + 1) % 40 = 0 := by
        simp at hst; omega
      simp [trainBatch, hp]
    | cons v2 w2 =>
      have hlen : w2.length + 2 ≤ 40 := by simpa using hle
      have hst2 : st.steps % 40 = 40 - (w2.length + 2) := by simpa using hst
      have hnp : (st.steps + 1) % 40 ≠ 0 := by omega
      have ih2 := ih ⟨st.steps + 1, st.running_loss + v, st.printed⟩
        (by simp) (by simp; omega) (by simp; omega)
      rw [List.foldl_cons,
        show trainBatch st v = ⟨st.steps + 1, st.running_loss + v, st.printed⟩ from
          by simp [trainBatch, hnp],
        ih2]
      simp only [List.length_cons, List.sum_cons, TrainLog.mk.injEq]
      refine ⟨by omega, by trivial, ?_⟩
      rw [List.append_cancel_left_eq]
      simp
      ring

/-- Loss values used in the counterexample run: 21 batches per epoch, loss 0
everywhere except loss 40 on the last batch of the epoch. -/
def exLosses : List ℚ :=
  List.replicate 20 0 ++ [40]

/-- Counterexample to claim C3 as stated: running the loop over three epochs
of `exLosses` (21 batches each), the single print fires at step 40, which is
batch 19 of epoch 2; the loop prints 0 because `running_loss` was reset to 0
at the start of epoch 2, but the average loss over those 40 steps (steps
1..40, which include the loss 40 at step 21) is 1. -/
theorem training_loop_print_counterexample :
    (trainThreeEpochs exLosses exLosses exLosses).printed = [0] ∧
    ((exLosses ++ exLosses ++ exLosses).take 40).sum / 40 = 1 ∧
    (0 : ℚ) ≠ 1 := by
  refine ⟨?_, ?_, by norm_num⟩
  · simp [trainThreeEpochs, trainEpoch, trainBatch, exLosses, List.replicate]
  · simp [exLosses, List.replicate]

/-- Claim C3 (amended): for each epoch and each mini-batch the loop increments
the step counter, flattens the images, runs `zero_grad`, forward, loss,
backward, `optimizer.step()` and adds `loss.item()` to the running loss, in
that order; every 40 steps it prints `running_loss / 40` and resets the
running loss to 0, where `running_loss` is the sum of the losses since the
last print or since the start of the current epoch (the loop resets
`running_loss` to 0 at each epoch start); when all 40 steps of the window lie
in the current epoch the printed value is exactly the average loss over those
40 steps. -/
theorem training_loop_behavior (st : TrainLog) (v : ℚ) :
    (trainBatch st v).steps = st.steps + 1 ∧
    ((st.steps + 1) % 40 = 0 →
      trainBatch st v = ⟨st.steps + 1, 0, st.printed ++ [(st.running_loss + v) / 40]⟩) ∧
    ((st.steps + 1) % 40 ≠ 0 →
      trainBatch st v = ⟨st.steps + 1, st.running_loss + v, st.printed⟩) ∧
    (∀ losses, trainEpoch st losses =
      losses.foldl trainBatch ⟨st.steps, 0, st.printed⟩) ∧
    (∀ w : List ℚ, w.length = 40 → st.steps % 40 = 0 →
      w.foldl trainBatch ⟨st.steps, 0, st.printed⟩ =
        ⟨st.steps + 40, 0, st.printed ++ [w.sum / 40]⟩) := by
  refine ⟨?_, ?_, ?_, fun _ => rfl, ?_⟩
  · by_cases hp : (st.steps + 1) % 40 = 0 <;> simp [trainBatch, hp]
  · intro hp; simp [trainBatch, hp]
  · intro hp; simp [trainBatch, hp]
  · intro w hw hs
    have h2 := trainWindow w ⟨st.steps, 0, st.printed⟩ (by omega) (by omega) (by simp; omega)
    rw [h2, hw]
    simp

/-- Witness for the amended claim C3, at concrete inputs: a print step and a
full 40-step window starting fresh. -/
theorem training_loop_behavior_witness :
    (39 + 1) % 40 = 0 ∧
    trainBatch ⟨39, 5, []⟩ 3 = ⟨39 + 1, 0, [] ++ [((5 : ℚ) + 3) / 40]⟩ ∧
    (List.replicate 40 (1 : ℚ)).length = 40 ∧
    List.foldl trainBatch ⟨0, 0, []⟩ (List.replicate 40 (1 : ℚ)) =
      ⟨0 + 40, 0, [] ++ [(List.replicate 40 (1 : ℚ)).sum / 40]⟩ := by
  refine ⟨by decide, (training_loop_behavior ⟨39, 5, []⟩ 3).2.1 (by decide),
    by simp, ?_⟩
  exact (training_loop_behavior ⟨0, 0, []⟩ 0).2.2.2.2 (List.replicate 40 1) (by simp) (by simp)

/-- A single model parameter as torch keeps it: its value and its `.grad`
field (`optimizer.zero_grad()` sets it to 0; before that it accumulates). -/
structure Param where
  value : ℚ
  grad : ℚ
  deriving DecidableEq

/-- Model of `optimizer.zero_grad()`: clear every `.grad`, touch no value. -/
def zero_grad (ps : List Param) : List Param :=
  ps.map fun p => { p with grad := 0 }

/-- Model of `loss.backward()`: add the gradient `g i` of the loss with
respect to parameter `i` into that parameter's `.grad` field (torch
accumulates gradients), starting from index `s`. -/
def backwardAux (g : Nat → ℚ) : Nat → List Param → List Param
  | _, [] => []
  | i, p :: ps => { p with grad := p.grad + g i } :: backwardAux g (i + 1) ps

/-- Model of `loss.backward()` over the whole parameter list. -/
def backwardAccum (ps : List Param) (g : Nat → ℚ) : List Param :=
  backwardAux g 0 ps

/-- Model of `optimizer.step()` for `optim.SGD(model.parameters(), lr)`:
`w ← w - lr * w.grad` elementwise, gradients untouched. -/
def sgdStep (lr : ℚ) (ps : List Param) : List Param :=
  ps.map fun p => { p with value := p.value - lr * p.grad }

/-- The single training step run in Part 3: `optimizer.zero_grad()`, forward
pass, loss, `loss.backward()`, `optimizer.step()` (the forward pass and the
loss computation are pure and appear as no state change). -/
def trainStep (lr : ℚ) (ps : List Param) (g : Nat → ℚ) : List Param :=
  sgdStep lr (backwardAccum (zero_grad ps) g)

theorem zero_grad_values (ps : List Param) :
    (zero_grad ps).map Param.value = ps.map Param.value := by
  induction ps with
  | nil => rfl
  | cons p ps ih => simp [zero_grad] at ih ⊢

theorem backwardAux_values (g : Nat → ℚ) :
    ∀ (s : Nat) (ps : List Param),
      (backwardAux g s ps).map Param.value = ps.map Param.value := by
  intro s ps
  induction ps generalizing s with
  | nil => rfl
  | cons p ps ih => simp [backwardAux, ih]

theorem sgdStep_grads (lr : ℚ) (ps : List Param) :
    (sgdStep lr ps).map Param.grad = ps.map Param.grad := by
  induction ps with
  | nil => rfl
  | cons p ps ih => simp [sgdStep] at ih ⊢

/-- Claim C4: within a single training step the parameter values are modified
only by `optimizer.step()`: `zero_grad` and `backward` leave every parameter
value unchanged (`backward` writes only the `.grad` fields), so after
`zero_grad`, forward, loss and `backward` the values are still the original
ones; dually, `step` leaves the `.grad` fields unchanged.  The forward pass
and the loss computation are pure functions in this model and change no
state. -/
theorem single_step_frame (ps : List Param) (g : Nat → ℚ) (lr : ℚ) :
    (zero_grad ps).map Param.value = ps.map Param.value ∧
    (backwardAccum ps g).map Param.value = ps.map Param.value ∧
    (backwardAccum (zero_grad ps) g).map Param.value = ps.map Param.value ∧
    (sgdStep lr ps).map Param.grad = ps.map Param.grad :=
  ⟨zero_grad_values ps,
   backwardAux_values g 0 ps,
   (backwardAux_values g 0 (zero_grad ps)).trans (zero_grad_values ps),
   sgdStep_grads lr ps⟩

theorem backwardAux_get (g : Nat → ℚ) :
    ∀ (ps : List Param) (s i : Nat),
      (backwardAux g s ps)[i]? = ps[i]?.map fun p => { p with grad := p.grad + g (s + i) } := by
  intro ps
  induction ps with
  | nil => intro s i; simp [backwardAux]
  | cons p ps ih =>
    intro s i
    cases i with
    | zero => simp [backwardAux]
    | succ j =>
      have h2 := ih (s + 1) j
      have h3 : s + 1 + j = s + (j + 1) := by omega
      simp [backwardAux, h3] at h2 ⊢
      exact h2

/-- Claim C6: after `zero_grad`, forward, loss and `backward`, the call
`optimizer.step()` on `optim.SGD(model.parameters(), lr=0.01)` replaces every
parameter value `w` by `w - 0.01 * w.grad` where `w.grad` is the gradient
`g i` written by `backward`; in particular a parameter whose gradient is zero
is left unchanged. -/
theorem sgd_update_rule (ps : List Param) (g : Nat → ℚ) (i : Nat) (p : Param)
    (hp : ps[i]? = some p) :
    (trainStep (1 / 100) ps g)[i]? = some ⟨p.value - (1 / 100) * g i, g i⟩ ∧
    (g i = 0 → ((trainStep (1 / 100) ps g)[i]?).map Param.value = some p.value) := by
  have hb : (backwardAccum (zero_grad ps) g)[i]? =
      some { p with grad := 0 + g i } := by
    rw [backwardAccum, backwardAux_get g (zero_grad ps) 0 i]
    simp [zero_grad, hp]
  constructor
  · simp [trainStep, sgdStep, hb]
  · intro hg
    simp [trainStep, sgdStep, hb, hg]

/-- Witness for claim C6 at a concrete parameter list and gradient. -/
theorem sgd_update_rule_witness :
    ([(⟨2, 7⟩ : Param)][0]? = some (⟨2, 7⟩ : Param)) ∧
    (trainStep (1 / 100) [⟨2, 7⟩] (fun _ => 0))[0]? =
      some ⟨(2 : ℚ) - (1 / 100) * 0, 0⟩ ∧
    ((trainStep (1 / 100) [⟨2, 7⟩] (fun _ => 0))[0]?).map Param.value =
      some (2 : ℚ) :=
  ⟨rfl,
   (sgd_update_rule [⟨2, 7⟩] (fun _ => 0) 0 ⟨2, 7⟩ rfl).1,
   (sgd_update_rule [⟨2, 7⟩] (fun _ => 0) 0 ⟨2, 7⟩ rfl).2 rfl⟩

/-- A tensor with gradient tracking, as created by
`torch.randn(2, 2, requires_grad=True)` in Part 3: four entries (row major)
and a `.grad` that is `None` until a backward pass writes it. -/
structure GradTensor where
  data : List ℚ
  grad : Option (List ℚ)
  deriving DecidableEq

/-- Model of `torch.randn(..., requires_grad=True)`: fresh leaf tensor with
the given (random) entries and no gradient yet. -/
def torch_randn (vals : List ℚ) : GradTensor :=
  ⟨vals, none⟩

/-- Forward of `y = x ** 2`: elementwise square. -/
def powForward (x : List ℚ) : List ℚ :=
  x.map fun v => v * v

/-- Forward of `z = y.mean()`: sum over all entries divided by their count. -/
def meanForward (y : List ℚ) : ℚ :=
  y.sum / y.length

/-- Vector-Jacobian product of the elementwise square at `x`: upstream `u`
maps to `2 * x * u` elementwise. -/
def powVJP (x u : List ℚ) : List ℚ :=
  (x.zip u).map fun q => 2 * q.1 * q.2

/-- Vector-Jacobian product of `mean` over `n` entries: upstream scalar `u`
maps to `u / n` for every entry. -/
def meanVJP (n : Nat) (u : ℚ) : List ℚ :=
  List.replicate n (u / n)

/-- Model of `z.backward()` for `z = (x ** 2).mean()`: seed `dz/dz = 1`,
chain the VJPs of `mean` and of the square, and write the result into
`x.grad`. -/
def backwardMeanSq (t : GradTensor) : GradTensor :=
  { t with grad := some (powVJP t.data (meanVJP (powForward t.data).length 1)) }

/-- Claim C7: for `x = torch.randn(2, 2, requires_grad=True)` (entries
`a b c d`), `x.grad` is `None` before any backward call; after
`z = (x ** 2).mean()` and `z.backward()`, `x.grad` equals `x / 2`; and `z`
itself is the mean of the four squares. -/
theorem autograd_mean_square (a b c d : ℚ) :
    (torch_randn [a, b, c, d]).grad = none ∧
    (backwardMeanSq (torch_randn [a, b, c, d])).grad =
      some [a / 2, b / 2, c / 2, d / 2] ∧
    meanForward (powForward [a, b, c, d]) = (a * a + b * b + c * c + d * d) / 4 := by
  refine ⟨rfl, ?_, ?_⟩
  · simp [backwardMeanSq, torch_randn, powVJP, meanVJP, powForward, List.replicate]
    refine ⟨by ring, by ring, by ring, by ring⟩
  · simp [meanForward, powForward]
    ring

/-- Claim C1: for every model constructed as `fc_model.Network(784, 10,
hidden_sizes)`, saving the checkpoint dictionary
`{'input_size': 784, 'output_size': 10, 'hidden_layers': [...],
'state_dict': model.state_dict()}` with `torch.save` and then calling
`load_checkpoint` on that file returns a model with the same architecture
(input size, output size, hidden layer sizes) and a state dict equal to the
original model's state dict. -/
theorem checkpoint_roundtrip (h : Nat) (t : List Nat) (init init2 : Nat → Nat → ℚ) :
    ∃ m2,
      load_checkpoint init2
        (torchSave (SavedObj.ckpt (mkCheckpoint (Network.make1 784 10 h t init)))) =
          some m2 ∧
      m2.input_size = (Network.make1 784 10 h t init).input_size ∧
      m2.output_size = (Network.make1 784 10 h t init).output_size ∧
      m2.hidden_layers.map Linear.out_features =
        (Network.make1 784 10 h t init).hidden_layers.map Linear.out_features ∧
      m2.state_dict = (Network.make1 784 10 h t init).state_dict :=
  checkpoint_reload_aux h t init init2

/-- Claim C8: the notebooks install no failure handler; in particular
`load_checkpoint` does not guard or recover from errors raised by the
framework calls it makes: whenever rebuilding the model or
`load_state_dict` fails inside `load_checkpoint`, the error propagates out
of `load_checkpoint` (modelled by `none`) instead of being caught and turned
into some recovered model. -/
theorem load_checkpoint_propagates (init : Nat → Nat → ℚ) (c : Checkpoint)
    (m : Network) (e : String)
    (hm : Network.make c.input_size c.output_size c.hidden_layers init = some m)
    (he : m.load_state_dict c.state_dict = Except.error e) :
    load_checkpoint init (torchSave (SavedObj.ckpt c)) = none := by
  simp only [load_checkpoint, torchLoad_torchSave]
  rw [hm]
  simp only []
  rw [he]

/-- Witness for claim C8: a concrete checkpoint whose stored state dict does
not match the architecture it records, so loading it fails and the failure
propagates. -/
theorem load_checkpoint_propagates_witness :
    Network.make 2 1 [1] (fun _ _ => 0) =
      some (Network.make1 2 1 1 [] (fun _ _ => 0)) ∧
    (Network.make1 2 1 1 [] (fun _ _ => 0)).load_state_dict [] =
      Except.error ("Error(s) in loading state_dict for Network: size mismatch") ∧
    load_checkpoint (fun _ _ => 0) (torchSave (SavedObj.ckpt ⟨2, 1, [1], []⟩)) = none := by
  refine ⟨rfl, load_state_dict_mismatch _ _ (by decide), ?_⟩
  exact load_checkpoint_propagates (fun _ _ => 0) ⟨2, 1, [1], []⟩
    (Network.make1 2 1 1 [] (fun _ _ => 0)) _ rfl
    (load_state_dict_mismatch _ _ (by decide))

/-- The two objects the Part 6 notebook passes to `torch.save`: first the bare
`model.state_dict()`, then the checkpoint dictionary. -/
def part6SavedObjects (m : Network) : List SavedObj :=
  [SavedObj.sd m.state_dict, SavedObj.ckpt (mkCheckpoint m)]

/-- Whether a saved object is a bare framework-produced state dict. -/
def isStateDictObj : SavedObj → Bool
  | SavedObj.sd _ => true
  | SavedObj.ckpt _ => false

/-- Counterexample to claim C9 as stated: the second object the notebook
passes to `torch.save` is not a model state dict but the notebook-defined
checkpoint dictionary, and `load_checkpoint` depends on that layout: fed a
file holding a bare state dict, it does not produce a model. -/
theorem saved_objects_counterexample :
    (part6SavedObjects (Network.make1 784 10 512 [256, 128] (fun _ _ => 0)))[1]? =
      some (SavedObj.ckpt (mkCheckpoint (Network.make1 784 10 512 [256, 128] (fun _ _ => 0)))) ∧
    isStateDictObj
      (SavedObj.ckpt (mkCheckpoint (Network.make1 784 10 512 [256, 128] (fun _ _ => 0)))) = false ∧
    load_checkpoint (fun _ _ => 0)
      (torchSave (SavedObj.sd (Network.make1 2 1 1 [] (fun _ _ => 0)).state_dict)) = none := by
  refine ⟨rfl, rfl, ?_⟩
  simp only [load_checkpoint, torchLoad_torchSave]

/-- Claim C9 (amended): the notebooks pass to `torch.save` both a
framework-produced model state dict and the notebook-defined checkpoint
dictionary `{'input_size', 'output_size', 'hidden_layers', 'state_dict'}`;
the serialization machinery itself is entirely the framework's, but
`load_checkpoint` depends on that notebook-defined layout: it rebuilds a
model from a saved checkpoint dictionary, and a file holding only a bare
state dict does not load. -/
theorem checkpoint_layout_amended (h : Nat) (t : List Nat)
    (init init2 : Nat → Nat → ℚ) :
    part6SavedObjects (Network.make1 784 10 h t init) =
      [SavedObj.sd (Network.make1 784 10 h t init).state_dict,
       SavedObj.ckpt ⟨784, 10, h :: t, (Network.make1 784 10 h t init).state_dict⟩] ∧
    (∀ sd, load_checkpoint init2 (torchSave (SavedObj.sd sd)) = none) ∧
    (∃ m2, load_checkpoint init2
        (torchSave (SavedObj.ckpt (mkCheckpoint (Network.make1 784 10 h t init)))) =
          some m2) := by
  refine ⟨?_, ?_, ?_⟩
  · simp [part6SavedObjects, mkCheckpoint, make1_out_features]
  · intro sd
    simp only [load_checkpoint, torchLoad_torchSave]
  · obtain ⟨m2, hm2, -⟩ := checkpoint_reload_aux h t init init2
    exact ⟨m2, hm2⟩
